import Mathlib

/-!
Verification development for the mem0 webhook relay server
(src/mem0_webhook_server.py).

The server is shallowly embedded: JSON/Python values become the inductive
type `PyVal` (numbers are modelled as integers; the claims under study only
involve integer and string values), Python dicts become insertion-ordered
association lists with Python `dict.update` semantics, wall-clock readings
(`datetime.now()`) become explicit `PyDateTime` parameters (one per call
site), the external mem0 client and submission outcomes become explicit
`Except`-valued parameters, and Python exceptions become the `Except.error`
constructor carrying the exception name.
-/

set_option autoImplicit false

namespace Mem0Webhook

/-- A Python value as produced by JSON parsing: `None`, booleans, numbers
(modelled as integers), strings, lists and string-keyed dicts. -/
inductive PyVal where
  | null : PyVal
  | bool : Bool → PyVal
  | int : Int → PyVal
  | str : String → PyVal
  | list : List PyVal → PyVal
  | dict : List (String × PyVal) → PyVal

/-- A Python dict with string keys: an insertion-ordered association list.
Dicts built by Python always have pairwise-distinct keys; theorems that
need this take it as a `Nodup` hypothesis. -/
abbrev PyDict := List (String × PyVal)

/-- Python truthiness (`bool(v)`): `None`, `False`, `0`, `""`, `[]` and
`{}` are falsy, everything else is truthy. -/
def truthy : PyVal → Bool
  | .null => false
  | .bool b => b
  | .int n => n != 0
  | .str s => s != ""
  | .list xs => !xs.isEmpty
  | .dict fs => !fs.isEmpty

/-- `d.get(k)`-style lookup in an association list: the first binding of
`k`, if any. -/
def dictGet : PyDict → String → Option PyVal
  | [], _ => none
  | (k2, v) :: rest, k => if k2 = k then some v else dictGet rest k

/-- `d.get(k, default)`: lookup with an explicit default. -/
def pyGetD (fs : PyDict) (k : String) (dflt : PyVal) : PyVal :=
  match dictGet fs k with
  | some v => v
  | none => dflt

/-- `d[k] = v` on a Python dict: replace the binding in place if the key
exists, otherwise append the new binding at the end. -/
def dictSet : PyDict → String → PyVal → PyDict
  | [], k, v => [(k, v)]
  | (k2, v2) :: rest, k, v =>
      if k2 = k then (k2, v) :: rest else (k2, v2) :: dictSet rest k v

/-- `base.update(m)` on Python dicts: fold `dictSet` over the entries of
`m` in order. -/
def dictUpdate (base m : PyDict) : PyDict :=
  m.foldl (fun acc p => dictSet acc p.1 p.2) base

/-- Python `a or b`: `a` if truthy, else `b`. -/
def pyOr (a b : PyVal) : PyVal :=
  if truthy a then a else b

/-- `v[0]` on a Python value: head of a list, first character of a string,
`KeyError` on a (string-keyed) dict, `IndexError` on empty sequences and
`TypeError` on non-subscriptable values. -/
def subscript0 : PyVal → Except String PyVal
  | .list [] => .error "IndexError"
  | .list (x :: _) => .ok x
  | .str s =>
      match s.data with
      | [] => .error "IndexError"
      | c :: _ => .ok (.str (String.mk [c]))
  | .dict _ => .error "KeyError"
  | _ => .error "TypeError"

/-- `v.get(k)` on a Python value: dict lookup defaulting to `None`, and
`AttributeError` when `v` is not a dict. -/
def pyAttrGet (v : PyVal) (k : String) : Except String PyVal :=
  match v with
  | .dict fs => .ok (pyGetD fs k .null)
  | _ => .error "AttributeError"

/-- A `datetime.now()` reading: the broken-down local time. -/
structure PyDateTime where
  year : Nat
  month : Nat
  day : Nat
  hour : Nat
  minute : Nat
  second : Nat
  microsecond : Nat

/-- Decimal rendering of `n` zero-padded on the left to width `w`. -/
def zpad (w n : Nat) : String :=
  let s := toString n
  String.mk (List.replicate (w - s.length) '0' ++ s.data)

/-- `dt.strftime("%Y-%m-%d")`. -/
def strftimeDay (d : PyDateTime) : String :=
  zpad 4 d.year ++ "-" ++ zpad 2 d.month ++ "-" ++ zpad 2 d.day

/-- `dt.strftime("%Y-%m")`. -/
def strftimeMonth (d : PyDateTime) : String :=
  zpad 4 d.year ++ "-" ++ zpad 2 d.month

/-- `dt.isoformat()`: `YYYY-MM-DDTHH:MM:SS[.ffffff]`, the microsecond part
omitted when it is zero. -/
def isoformat (d : PyDateTime) : String :=
  strftimeDay d ++ "T" ++ zpad 2 d.hour ++ ":" ++ zpad 2 d.minute ++ ":" ++
    zpad 2 d.second ++ (if d.microsecond = 0 then "" else "." ++ zpad 6 d.microsecond)

/-- The ten derived bindings of `full_metadata` (lines 105-116), in source
order. The five `datetime.now()` call sites receive five explicit readings
`n1`..`n5` in source order. -/
def create_memory_base_metadata (category client project_type source : String)
    (n1 n2 n3 n4 n5 : PyDateTime) : PyDict :=
  [("category", .str category),
   ("day", .str (strftimeDay n1)),
   ("month", .str (strftimeMonth n2)),
   ("year", .str (toString n3.year)),
   ("client", .str client),
   ("project_type", .str project_type),
   ("device", .str "webhook_api"),
   ("timestamp", .str (isoformat n4)),
   ("source", .str source),
   ("webhook_received", .str (isoformat n5))]

/-- The `full_metadata` built by `create_memory` (lines 105-120): the ten
derived bindings, then `full_metadata.update(metadata)` when the caller
metadata is truthy (a present, non-empty dict). -/
def create_memory_full_metadata (category client project_type source : String)
    (n1 n2 n3 n4 n5 : PyDateTime) (metadata : Option PyDict) : PyDict :=
  let base := create_memory_base_metadata category client project_type source
    n1 n2 n3 n4 n5
  match metadata with
  | none => base
  | some [] => base
  | some m => dictUpdate base m

/-- Memory-id extraction from the mem0 client's response (lines 133-138):
` result.get(\x27id\x27) or result.get(\x27results\x27, [\x7b\x7d])[0].get(\x27id\x27)`
when the response is a dict, `result[0].get(\x27id\x27)` when it is a
non-empty list, and `None` otherwise. `Except.error` models a raised
exception; `PyVal.null` models an absent identifier. -/
def extract_memory_id (result : PyVal) : Except String PyVal :=
  match result with
  | .dict fs =>
      let a := pyGetD fs "id" .null
      if truthy a then .ok a
      else
        match subscript0 (pyGetD fs "results" (.list [.dict []])) with
        | .error e => .error e
        | .ok elt => pyAttrGet elt "id"
  | .list [] => .ok .null
  | .list (x :: _) => pyAttrGet x "id"
  | _ => .ok .null

/-- The dict returned by `create_memory` on success (lines 140-146). -/
structure CreateMemoryResult where
  success : Bool
  memory_id : PyVal
  user_id : String
  content : String
  metadata : PyDict

/-- `create_memory` (lines 93-150): build the enriched metadata, submit to
the mem0 client (whose outcome — returned response or raised exception —
is the explicit `clientResp` parameter), extract the memory id from the
response, and return the result dict. Any exception propagates to the
caller (the `try`/`except` re-raises). -/
def create_memory (content user_id category : String) (metadata : Option PyDict)
    (client project_type source : String) (n1 n2 n3 n4 n5 : PyDateTime)
    (clientResp : Except String PyVal) : Except String CreateMemoryResult :=
  let full := create_memory_full_metadata category client project_type source
    n1 n2 n3 n4 n5 metadata
  match clientResp with
  | .error e => .error e
  | .ok result =>
      match extract_memory_id result with
      | .error e => .error e
      | .ok mid =>
          .ok { success := true, memory_id := mid, user_id := user_id,
                content := content, metadata := full }

/-- The pydantic model `MemoryWebhookRequest` (lines 49-57): `content` is a
required string; the other fields are optional strings with defaults
(`None` is admissible for each optional field, hence `Option String`);
`metadata` is an optional dict. -/
structure MemoryWebhookRequest where
  content : String
  user_id : Option String
  category : Option String
  metadata : Option PyDict
  client : Option String
  project_type : Option String
  source : Option String

/-- Pydantic validation of an `Optional[str]` field: absent gives the
declared default, JSON `null` gives `None`, a string gives itself, and any
other value is a validation error. -/
def parseOptStr (fs : PyDict) (k : String) (dflt : Option String) :
    Except String (Option String) :=
  match dictGet fs k with
  | none => .ok dflt
  | some .null => .ok none
  | some (.str s) => .ok (some s)
  | some _ => .error ("validation error: " ++ k)

/-- Pydantic validation of the `Optional[Dict[str, Any]]` field
`metadata`: absent or `null` gives `None`, a dict gives itself, anything
else is a validation error. -/
def parseOptDict (fs : PyDict) (k : String) : Except String (Option PyDict) :=
  match dictGet fs k with
  | none => .ok none
  | some .null => .ok none
  | some (.dict m) => .ok (some m)
  | some _ => .error ("validation error: " ++ k)

/-- Pydantic validation of a structured request body against
`MemoryWebhookRequest`: the body must be a JSON object whose `content` key
holds a string; the remaining fields are validated as optional fields with
their declared defaults (`default_user_id` is the process-wide
`DEFAULT_USER_ID`). -/
def parse_structured (default_user_id : String) (body : PyVal) :
    Except String MemoryWebhookRequest :=
  match body with
  | .dict fs =>
      match dictGet fs "content" with
      | some (.str c) =>
          match parseOptStr fs "user_id" (some default_user_id),
                parseOptStr fs "category" (some "webhook"),
                parseOptDict fs "metadata",
                parseOptStr fs "client" (some "webhook"),
                parseOptStr fs "project_type" (some "webhook_post"),
                parseOptStr fs "source" (some "webhook") with
          | .ok u, .ok cat, .ok m, .ok cl, .ok pt, .ok src =>
              .ok { content := c, user_id := u, category := cat,
                    metadata := m, client := cl, project_type := pt,
                    source := src }
          | .error e, _, _, _, _, _ => .error e
          | _, .error e, _, _, _, _ => .error e
          | _, _, .error e, _, _, _ => .error e
          | _, _, _, .error e, _, _ => .error e
          | _, _, _, _, .error e, _ => .error e
          | _, _, _, _, _, .error e => .error e
      | some _ => .error "validation error: content"
      | none => .error "validation error: content"
  | _ => .error "validation error: body"

mutual

/-- Python `str(v)` / `repr(v)` for a JSON-parsed value: `None`, `True`,
`False`, decimal integers, single-quoted strings, bracketed lists and
braced dicts (string quote-escaping inside `repr` is not modelled; no
claim depends on the rendering of a string containing a quote). -/
def pyRepr : PyVal → String
  | .null => "None"
  | .bool true => "True"
  | .bool false => "False"
  | .int n => toString n
  | .str s => "\x27" ++ s ++ "\x27"
  | .list xs => "[" ++ pyReprList xs ++ "]"
  | .dict fs => "\x7b" ++ pyReprDict fs ++ "\x7d"

/-- Comma-separated `repr` of list elements. -/
def pyReprList : List PyVal → String
  | [] => ""
  | [x] => pyRepr x
  | x :: rest => pyRepr x ++ ", " ++ pyReprList rest

/-- Comma-separated `repr` of dict entries. -/
def pyReprDict : List (String × PyVal) → String
  | [] => ""
  | [(k, v)] => "\x27" ++ k ++ "\x27: " ++ pyRepr v
  | (k, v) :: rest => "\x27" ++ k ++ "\x27: " ++ pyRepr v ++ ", " ++ pyReprDict rest

end

mutual

/-- `json.dumps(v, indent=2)`, modelled up to whitespace and string
escaping (no claim depends on the exact rendering, only on the generic
endpoint producing one). -/
def jsonDumps : PyVal → String
  | .null => "null"
  | .bool true => "true"
  | .bool false => "false"
  | .int n => toString n
  | .str s => "\x22" ++ s ++ "\x22"
  | .list xs => "[" ++ jsonDumpsList xs ++ "]"
  | .dict fs => "\x7b" ++ jsonDumpsDict fs ++ "\x7d"

/-- Comma-separated serialization of list elements. -/
def jsonDumpsList : List PyVal → String
  | [] => ""
  | [x] => jsonDumps x
  | x :: rest => jsonDumps x ++ ", " ++ jsonDumpsList rest

/-- Comma-separated serialization of dict entries. -/
def jsonDumpsDict : List (String × PyVal) → String
  | [] => ""
  | [(k, v)] => "\x22" ++ k ++ "\x22: " ++ jsonDumps v
  | (k, v) :: rest => "\x22" ++ k ++ "\x22: " ++ jsonDumps v ++ ", " ++ jsonDumpsDict rest

end

/-- The alias keys excluded from Zapier metadata (line 337). -/
def zapierConsumedKeys : List String :=
  ["content", "message", "text", "user_id", "userId", "category"]

/-- The canonical record the Zapier normalizer hands to `create_memory`.
`content`, `user_id` and `category` are arbitrary Python values: the
source extracts them with `.get`/`or` chains and performs no type
validation. -/
structure ZapierNorm where
  content : PyVal
  user_id : PyVal
  category : PyVal
  metadata : PyDict

/-- The normalization part of `zapier_webhook` (lines 328-337):
`content = body.get("content") or body.get("message") or body.get("text") or str(body)`,
`user_id = body.get("user_id") or body.get("userId") or DEFAULT_USER_ID`,
`category = body.get("category") or "zapier"`, and metadata = every entry
whose key is not in the fixed consumed-keys list. On a non-dict body the
first `.get` raises `AttributeError`. -/
def zapier_normalize (default_user_id : String) (body : PyVal) :
    Except String ZapierNorm :=
  match body with
  | .dict fs =>
      .ok { content := pyOr (pyGetD fs "content" .null)
              (pyOr (pyGetD fs "message" .null)
                (pyOr (pyGetD fs "text" .null) (.str (pyRepr body)))),
            user_id := pyOr (pyGetD fs "user_id" .null)
              (pyOr (pyGetD fs "userId" .null) (.str default_user_id)),
            category := pyOr (pyGetD fs "category" .null) (.str "zapier"),
            metadata := fs.filter (fun kv => !(zapierConsumedKeys.contains kv.1)) }
  | _ => .error "AttributeError"

/-- The canonical record the generic normalizer hands to `create_memory`. -/
structure GenericNorm where
  content : String
  user_id : PyVal
  metadata : PyDict

/-- The normalization part of `generic_webhook` (lines 367-383): content
is `"Webhook data received: "` followed by the serialized payload,
`user_id = body.get("user_id") or body.get("userId") or body.get("user") or body.get("email") or DEFAULT_USER_ID`,
and metadata embeds the raw payload under `"raw_payload"`. On a non-dict
body the first `.get` raises `AttributeError`. -/
def generic_normalize (default_user_id : String) (body : PyVal) :
    Except String GenericNorm :=
  match body with
  | .dict fs =>
      .ok { content := "Webhook data received: " ++ jsonDumps body,
            user_id := pyOr (pyGetD fs "user_id" .null)
              (pyOr (pyGetD fs "userId" .null)
                (pyOr (pyGetD fs "user" .null)
                  (pyOr (pyGetD fs "email" .null) (.str default_user_id)))),
            metadata := [("raw_payload", body)] }
  | _ => .error "AttributeError"

/-- One entry of the batch endpoint's `errors` list (lines 307-310): the
first 50 characters of the failing request's content plus the error
text. -/
structure BatchItemError where
  content : String
  error : String

/-- The response dict of the batch endpoint (lines 312-319). -/
structure BatchResponse where
  success : Bool
  created : Nat
  failed : Nat
  results : List CreateMemoryResult
  errors : Option (List BatchItemError)
  timestamp : String

/-- The loop body of `webhook_batch_memories` (lines 294-310): one
`create_memory` submission per entry — the submission outcome, including
everything behind it (enrichment inputs and the external client), is the
explicit executor `ex` — appending the result on success and a truncated
preview plus error text on failure. -/
def batchStep (ex : MemoryWebhookRequest → Except String CreateMemoryResult)
    (acc : List CreateMemoryResult × List BatchItemError)
    (req : MemoryWebhookRequest) :
    List CreateMemoryResult × List BatchItemError :=
  match ex req with
  | .ok r => (acc.1 ++ [r], acc.2)
  | .error e => (acc.1, acc.2 ++ [⟨req.content.take 50, e⟩])

/-- `webhook_batch_memories` (lines 274-319): run the loop over the
entries in order starting from empty `results`/`errors`, then assemble the
response: `success` is `len(errors) == 0`, `created`/`failed` are the list
lengths, and a non-empty `errors` list is returned as-is while an empty
one becomes `None`. -/
def webhook_batch_memories (ex : MemoryWebhookRequest → Except String CreateMemoryResult)
    (memories : List MemoryWebhookRequest) (now : String) : BatchResponse :=
  let acc := memories.foldl (batchStep ex) ([], [])
  { success := acc.2.length == 0,
    created := acc.1.length,
    failed := acc.2.length,
    results := acc.1,
    errors := match acc.2 with
              | [] => none
              | es => some es,
    timestamp := now }

/-- The health-check response model (lines 71-76). -/
structure WebhookHealthResponse where
  status : String
  timestamp : String
  mem0_connected : Bool
  webhook_ready : Bool

/-- `health_check` (lines 210-225): probe the mem0 client with a search
(the probe's outcome is the explicit `probe` parameter; the bare `except`
catches every exception), then always return a response:
`status = "healthy"` when the probe succeeded and `"degraded"` otherwise,
with `webhook_ready` always `true`. Totality of this function models
"never an error response". -/
def health_check (probe : Except String PyVal) (now : String) :
    WebhookHealthResponse :=
  let mem0_connected := match probe with
                        | .ok _ => true
                        | .error _ => false
  { status := if mem0_connected then "healthy" else "degraded",
    timestamp := now,
    mem0_connected := mem0_connected,
    webhook_ready := true }

/-- Truncation of a natural number to 32 bits. -/
def w32 (n : Nat) : Nat := n % 4294967296

/-- 32-bit right rotation. -/
def rotRight32 (x n : Nat) : Nat := w32 ((x >>> n) ||| (x <<< (32 - n)))

/-- SHA-256 message-schedule function sigma0 (rotations by 7 and 18, shift
by 3). -/
def schedSig0 (x : Nat) : Nat :=
  (rotRight32 x 7) ^^^ (rotRight32 x 18) ^^^ (x >>> 3)

/-- SHA-256 message-schedule function sigma1 (rotations by 17 and 19,
shift by 10). -/
def schedSig1 (x : Nat) : Nat :=
  (rotRight32 x 17) ^^^ (rotRight32 x 19) ^^^ (x >>> 10)

/-- SHA-256 compression function Sigma0 (rotations by 2, 13 and 22). -/
def compSig0 (x : Nat) : Nat :=
  (rotRight32 x 2) ^^^ (rotRight32 x 13) ^^^ (rotRight32 x 22)

/-- SHA-256 compression function Sigma1 (rotations by 6, 11 and 25). -/
def compSig1 (x : Nat) : Nat :=
  (rotRight32 x 6) ^^^ (rotRight32 x 11) ^^^ (rotRight32 x 25)

/-- SHA-256 choice function (complement taken inside 32 bits). -/
def chFn (x y z : Nat) : Nat := (x &&& y) ^^^ ((x ^^^ 4294967295) &&& z)

/-- SHA-256 majority function. -/
def majFn (x y z : Nat) : Nat := (x &&& y) ^^^ (x &&& z) ^^^ (y &&& z)

/-- The 64 SHA-256 round constants of FIPS 180-4 (decimal). -/
def sha256K : List Nat :=
  [1116352408, 1899447441, 3049323471, 3921009573, 961987163, 1508970993,
   2453635748, 2870763221, 3624381080, 310598401, 607225278, 1426881987,
   1925078388, 2162078206, 2614888103, 3248222580, 3835390401, 4022224774,
   264347078, 604807628, 770255983, 1249150122, 1555081692, 1996064986,
   2554220882, 2821834349, 2952996808, 3210313671, 3336571891, 3584528711,
   113926993, 338241895, 666307205, 773529912, 1294757372, 1396182291,
   1695183700, 1986661051, 2177026350, 2456956037, 2730485921, 2820302411,
   3259730800, 3345764771, 3516065817, 3600352804, 4094571909, 275423344,
   430227734, 506948616, 659060556, 883997877, 958139571, 1322822218,
   1537002063, 1747873779, 1955562222, 2024104815, 2227730452, 2361852424,
   2428436474, 2756734187, 3204031479, 3329325298]

/-- The eight initial SHA-256 hash values of FIPS 180-4 (decimal). -/
def sha256H0 : List Nat :=
  [1779033703, 3144134277, 1013904242, 2773480762,
   1359893119, 2600822924, 528734635, 1541459225]

/-- Big-endian byte rendering of `v` on `k` bytes. -/
def beBytes : Nat → Nat → List Nat
  | 0, _ => []
  | k + 1, v => beBytes k (v / 256) ++ [v % 256]

/-- SHA-256 padding: append `0x80`, zeros to 56 mod 64, and the bit length
on 8 big-endian bytes. -/
def sha256Pad (msg : List Nat) : List Nat :=
  let len := msg.length
  msg ++ [0x80] ++ List.replicate ((64 - ((len + 9) % 64)) % 64) 0 ++
    beBytes 8 (len * 8)

/-- Group bytes into big-endian 32-bit words. -/
def bytesToWords : List Nat → List Nat
  | a :: b :: c :: d :: rest =>
      (a * 16777216 + b * 65536 + c * 256 + d) :: bytesToWords rest
  | _ => []

/-- Split a byte list into 64-byte blocks (fuel-based so that the
definition reduces by kernel evaluation). -/
def chunks64Go : Nat → List Nat → List (List Nat)
  | 0, _ => []
  | _, [] => []
  | fuel + 1, l => l.take 64 :: chunks64Go fuel (l.drop 64)

/-- Split a byte list into 64-byte blocks. -/
def chunks64 (l : List Nat) : List (List Nat) := chunks64Go l.length l

/-- Extend 16 message words to the 64-word schedule. -/
def sha256Schedule (ws : List Nat) : Array Nat :=
  (List.range 48).foldl
    (fun acc j =>
      let i := j + 16
      acc.push (w32 (schedSig1 (acc.getD (i - 2) 0) + acc.getD (i - 7) 0 +
        schedSig0 (acc.getD (i - 15) 0) + acc.getD (i - 16) 0)))
    ws.toArray

/-- One SHA-256 compression round. -/
def sha256Round (w : Array Nat) (i : Nat)
    (st : Nat × Nat × Nat × Nat × Nat × Nat × Nat × Nat) :
    Nat × Nat × Nat × Nat × Nat × Nat × Nat × Nat :=
  match st with
  | (a, b, c, d, e, f, g, h) =>
      let t1 := w32 (h + compSig1 e + chFn e f g + sha256K.getD i 0 + w.getD i 0)
      let t2 := w32 (compSig0 a + majFn a b c)
      (w32 (t1 + t2), a, b, c, w32 (d + t1), e, f, g)

/-- SHA-256 compression of one block into the running hash state. -/
def sha256Compress (h : List Nat) (block : List Nat) : List Nat :=
  match h with
  | [a0, b0, c0, d0, e0, f0, g0, h0] =>
      let w := sha256Schedule (bytesToWords block)
      match (List.range 64).foldl (fun st i => sha256Round w i st)
              (a0, b0, c0, d0, e0, f0, g0, h0) with
      | (a, b, c, d, e, f, g, hh) =>
          [w32 (a0 + a), w32 (b0 + b), w32 (c0 + c), w32 (d0 + d),
           w32 (e0 + e), w32 (f0 + f), w32 (g0 + g), w32 (h0 + hh)]
  | other => other

/-- SHA-256 of a byte list, as a 32-byte digest. -/
def sha256 (msg : List Nat) : List Nat :=
  ((chunks64 (sha256Pad msg)).foldl sha256Compress sha256H0).foldr
    (fun wv acc => beBytes 4 wv ++ acc) []

/-- Lowercase hexadecimal digit: codepoint 48 is the digit zero and
codepoint 97 is the letter a. -/
def hexChar (n : Nat) : Char :=
  Char.ofNat (if n < 10 then 48 + n else 87 + n)

/-- Lowercase hexadecimal rendering of a byte list (`.hexdigest()`). -/
def hexDigest (bytes : List Nat) : String :=
  String.mk (bytes.foldr (fun b acc => hexChar (b / 16) :: hexChar (b % 16) :: acc) [])

/-- HMAC-SHA256 digest bytes (`hmac.new(key, msg, hashlib.sha256)`). -/
def hmacSha256 (key msg : List Nat) : List Nat :=
  let k0 := if key.length > 64 then sha256 key else key
  let kpad := k0 ++ List.replicate (64 - k0.length) 0
  sha256 ((kpad.map (fun b => b ^^^ 0x5c)) ++
    sha256 ((kpad.map (fun b => b ^^^ 0x36)) ++ msg))

/-- HMAC-SHA256 lowercase hex digest. -/
def hmacSha256Hex (key msg : List Nat) : String := hexDigest (hmacSha256 key msg)

/-- UTF-8 encoding of one character. -/
def utf8EncodeChar (c : Char) : List Nat :=
  let n := c.toNat
  if n < 128 then [n]
  else if n < 2048 then [192 + n / 64, 128 + n % 64]
  else if n < 65536 then [224 + n / 4096, 128 + (n / 64) % 64, 128 + n % 64]
  else [240 + n / 262144, 128 + (n / 4096) % 64, 128 + (n / 64) % 64, 128 + n % 64]

/-- `s.encode()`: UTF-8 bytes of a string. -/
def utf8Encode (s : String) : List Nat :=
  s.data.foldr (fun c acc => utf8EncodeChar c ++ acc) []

/-- The placeholder value of the `WEBHOOK_SECRET` environment variable
(line 42). -/
def defaultSecretSentinel : String := "your-webhook-secret-here"

/-- `verify_webhook_signature` (lines 79-90): skip verification (return
`True`) when the secret is empty (falsy) or still the placeholder;
otherwise compare the given signature with the HMAC-SHA256 hex digest of
the payload under the encoded secret. `hmac.compare_digest` is modelled by
its functional contract, string equality (its constant-time behaviour is a
timing property outside a shallow embedding). -/
def verify_webhook_signature (payload : List Nat) (signature secret : String) :
    Bool :=
  if secret = "" ∨ secret = defaultSecretSentinel then true
  else signature == hmacSha256Hex (utf8Encode secret) payload

/-! ### Helper lemmas about Python dict operations -/

theorem dictGet_dictSet_self (d : PyDict) (k : String) (v : PyVal) :
    dictGet (dictSet d k v) k = some v := by
  induction d with
  | nil => simp [dictSet, dictGet]
  | cons p rest ih =>
      obtain ⟨k2, v2⟩ := p
      by_cases h : k2 = k
      · simp [dictSet, dictGet, h]
      · simp [dictSet, dictGet, h, ih]

theorem dictGet_dictSet_ne (d : PyDict) (k k' : String) (v : PyVal)
    (h : k ≠ k') : dictGet (dictSet d k v) k' = dictGet d k' := by
  induction d with
  | nil => simp [dictSet, dictGet, h]
  | cons p rest ih =>
      obtain ⟨k2, v2⟩ := p
      by_cases h2 : k2 = k
      · subst h2
        simp [dictSet, dictGet, h]
      · simp [dictSet, dictGet, h2, ih]

theorem dictGet_dictSet_isSome (d : PyDict) (k k' : String) (v : PyVal)
    (h : (dictGet d k').isSome) : (dictGet (dictSet d k v) k').isSome := by
  by_cases hk : k = k'
  · subst hk
    simp [dictGet_dictSet_self]
  · rwa [dictGet_dictSet_ne d k k' v hk]

theorem dictUpdate_nil (d : PyDict) : dictUpdate d [] = d := rfl

theorem dictUpdate_cons (d : PyDict) (p : String × PyVal) (m : PyDict) :
    dictUpdate d (p :: m) = dictUpdate (dictSet d p.1 p.2) m := rfl

theorem dictGet_dictUpdate_not_mem (m : PyDict) (d : PyDict) (k : String)
    (h : k ∉ m.map Prod.fst) : dictGet (dictUpdate d m) k = dictGet d k := by
  induction m generalizing d with
  | nil => rfl
  | cons p rest ih =>
      simp only [List.map_cons, List.mem_cons, not_or] at h
      rw [dictUpdate_cons, ih (dictSet d p.1 p.2) h.2,
        dictGet_dictSet_ne d p.1 k p.2 (fun he => h.1 he.symm)]

theorem dictGet_dictUpdate_isSome (m : PyDict) (d : PyDict) (k : String)
    (h : (dictGet d k).isSome) : (dictGet (dictUpdate d m) k).isSome := by
  induction m generalizing d with
  | nil => exact h
  | cons p rest ih =>
      rw [dictUpdate_cons]
      exact ih (dictSet d p.1 p.2) (dictGet_dictSet_isSome d p.1 k p.2 h)

theorem dictGet_dictUpdate_mem (m : PyDict) (d : PyDict)
    (hnd : (m.map Prod.fst).Nodup) :
    ∀ p ∈ m, dictGet (dictUpdate d m) p.1 = some p.2 := by
  induction m generalizing d with
  | nil => intro p hp; cases hp
  | cons q rest ih =>
      simp only [List.map_cons, List.nodup_cons] at hnd
      intro p hp
      rcases List.mem_cons.mp hp with h | h
      · subst h
        rw [dictUpdate_cons,
          dictGet_dictUpdate_not_mem rest (dictSet d p.1 p.2) p.1 hnd.1,
          dictGet_dictSet_self]
      · exact ih (dictSet d q.1 q.2) hnd.2 p h

theorem create_memory_full_metadata_eq (category client project_type source : String)
    (n1 n2 n3 n4 n5 : PyDateTime) (md : Option PyDict) :
    create_memory_full_metadata category client project_type source
      n1 n2 n3 n4 n5 md =
    dictUpdate (create_memory_base_metadata category client project_type source
      n1 n2 n3 n4 n5) (md.getD []) := by
  cases md with
  | none => rfl
  | some m => cases m <;> rfl

/-- On a successful submission, the metadata field of `create_memory`'s
result is exactly the enriched metadata. -/
theorem create_memory_ok_metadata (content user_id category : String)
    (metadata : Option PyDict) (client project_type source : String)
    (n1 n2 n3 n4 n5 : PyDateTime) (clientResp : Except String PyVal)
    (r : CreateMemoryResult)
    (hr : create_memory content user_id category metadata client project_type
      source n1 n2 n3 n4 n5 clientResp = .ok r) :
    r.metadata = create_memory_full_metadata category client project_type source
      n1 n2 n3 n4 n5 metadata := by
  cases clientResp with
  | error e => simp [create_memory] at hr
  | ok res =>
      cases hex : extract_memory_id res with
      | error e => simp [create_memory, hex] at hr
      | ok mid =>
          simp only [create_memory, hex, Except.ok.injEq] at hr
          rw [← hr]

/-- The derived metadata keys named by the specification: day, month,
year, device, the two ISO-8601 timestamps, and source. -/
def enrichedDerivedKeys : List String :=
  ["day", "month", "year", "device", "timestamp", "webhook_received", "source"]

/-- A fixed concrete clock reading, used to instantiate theorems. -/
def dt0 : PyDateTime := ⟨2026, 10, 12, 9, 30, 15, 0⟩

/-- C1: for every structured request with non-empty content, the enriched
metadata mapping produced by `create_memory` contains the derived keys
day, month, year, device, the two ISO-8601 timestamps (`timestamp` and
`webhook_received`) and source, plus all caller-supplied metadata keys;
on a collision the caller's value is the one present — and when a derived
key is not overridden it carries its derived rendering (shown here for
`day` = `%Y-%m-%d` and `month` = `%Y-%m`). -/
theorem create_memory_enriched_metadata
    (content user_id category client project_type source : String)
    (n1 n2 n3 n4 n5 : PyDateTime) (m : PyDict)
    (clientResp : Except String PyVal) (r : CreateMemoryResult)
    (_hc : content ≠ "") (hnd : (m.map Prod.fst).Nodup)
    (hr : create_memory content user_id category (some m) client project_type
      source n1 n2 n3 n4 n5 clientResp = .ok r) :
    (∀ k ∈ enrichedDerivedKeys, (dictGet r.metadata k).isSome) ∧
    (∀ p ∈ m, dictGet r.metadata p.1 = some p.2) ∧
    ("day" ∉ m.map Prod.fst →
      dictGet r.metadata "day" = some (.str (strftimeDay n1))) ∧
    ("month" ∉ m.map Prod.fst →
      dictGet r.metadata "month" = some (.str (strftimeMonth n2))) := by
  have hm := create_memory_ok_metadata content user_id category (some m) client
    project_type source n1 n2 n3 n4 n5 clientResp r hr
  rw [create_memory_full_metadata_eq] at hm
  simp only [Option.getD_some] at hm
  refine ⟨?_, ?_, ?_, ?_⟩
  · intro k hk
    rw [hm]
    apply dictGet_dictUpdate_isSome
    simp only [enrichedDerivedKeys, List.mem_cons, List.not_mem_nil, or_false] at hk
    rcases hk with rfl | rfl | rfl | rfl | rfl | rfl | rfl <;> rfl
  · intro p hp
    rw [hm]
    exact dictGet_dictUpdate_mem m _ hnd p hp
  · intro hday
    rw [hm, dictGet_dictUpdate_not_mem _ _ _ hday]
    rfl
  · intro hmonth
    rw [hm, dictGet_dictUpdate_not_mem _ _ _ hmonth]
    rfl

/-- Witness for C1: a concrete request with non-empty content and caller
metadata overriding the derived key `day`, submitted against a client
response carrying an id. -/
theorem create_memory_enriched_metadata_witness :
    ("remember this" : String) ≠ "" ∧
    ((([("day", PyVal.str "override"), ("extra", PyVal.int 1)] : PyDict).map
      Prod.fst).Nodup) ∧
    (∀ p ∈ ([("day", PyVal.str "override"), ("extra", PyVal.int 1)] : PyDict),
      dictGet (create_memory_full_metadata "webhook" "webhook" "webhook_post"
        "webhook" dt0 dt0 dt0 dt0 dt0
        (some [("day", PyVal.str "override"), ("extra", PyVal.int 1)])) p.1 =
        some p.2) :=
  ⟨by decide, by decide,
   (create_memory_enriched_metadata "remember this" "quinn_may" "webhook"
      "webhook" "webhook_post" "webhook" dt0 dt0 dt0 dt0 dt0
      [("day", PyVal.str "override"), ("extra", PyVal.int 1)]
      (.ok (.dict [("id", .str "m1")]))
      ⟨true, .str "m1", "quinn_may", "remember this",
        create_memory_full_metadata "webhook" "webhook" "webhook_post"
          "webhook" dt0 dt0 dt0 dt0 dt0
          (some [("day", PyVal.str "override"), ("extra", PyVal.int 1)])⟩
      (by decide) (by decide) rfl).2.1⟩

/-- C9: every submission through `create_memory` additionally binds the
metadata keys `category`, `client` and `project_type` (not listed among
the spec's derived keys) to the resolved category and the `client` /
`project_type` arguments, unless caller metadata overwrites them; the
three keys are present in every case. -/
theorem create_memory_extra_metadata_keys
    (content user_id category client project_type source : String)
    (n1 n2 n3 n4 n5 : PyDateTime) (md : Option PyDict)
    (clientResp : Except String PyVal) (r : CreateMemoryResult)
    (hnd : ((md.getD []).map Prod.fst).Nodup)
    (hr : create_memory content user_id category md client project_type
      source n1 n2 n3 n4 n5 clientResp = .ok r) :
    ((dictGet r.metadata "category").isSome ∧
     (dictGet r.metadata "client").isSome ∧
     (dictGet r.metadata "project_type").isSome) ∧
    ("category" ∉ (md.getD []).map Prod.fst →
      dictGet r.metadata "category" = some (.str category)) ∧
    ("client" ∉ (md.getD []).map Prod.fst →
      dictGet r.metadata "client" = some (.str client)) ∧
    ("project_type" ∉ (md.getD []).map Prod.fst →
      dictGet r.metadata "project_type" = some (.str project_type)) ∧
    (∀ m v, md = some m → ("category", v) ∈ m →
      dictGet r.metadata "category" = some v) := by
  have hm := create_memory_ok_metadata content user_id category md client
    project_type source n1 n2 n3 n4 n5 clientResp r hr
  rw [create_memory_full_metadata_eq] at hm
  refine ⟨⟨?_, ?_, ?_⟩, ?_, ?_, ?_, ?_⟩
  · rw [hm]; exact dictGet_dictUpdate_isSome _ _ _ (by rfl)
  · rw [hm]; exact dictGet_dictUpdate_isSome _ _ _ (by rfl)
  · rw [hm]; exact dictGet_dictUpdate_isSome _ _ _ (by rfl)
  · intro h
    rw [hm, dictGet_dictUpdate_not_mem _ _ _ h]
    rfl
  · intro h
    rw [hm, dictGet_dictUpdate_not_mem _ _ _ h]
    rfl
  · intro h
    rw [hm, dictGet_dictUpdate_not_mem _ _ _ h]
    rfl
  · intro m v hmd hv
    subst hmd
    simp only [Option.getD_some] at hm hnd
    rw [hm]
    exact dictGet_dictUpdate_mem m _ hnd ("category", v) hv

/-- Witness for C9: a concrete submission whose caller metadata overrides
`category` but not `client` or `project_type`. -/
theorem create_memory_extra_metadata_keys_witness :
    ((((some [("category", PyVal.str "custom")] : Option PyDict)).getD []).map
      Prod.fst).Nodup ∧
    (∀ m v, (some [("category", PyVal.str "custom")] : Option PyDict) = some m →
      ("category", v) ∈ m →
      dictGet (create_memory_full_metadata "zapier" "zapier" "automation"
        "zapier_webhook" dt0 dt0 dt0 dt0 dt0
        (some [("category", PyVal.str "custom")])) "category" = some v) :=
  ⟨by decide,
   (create_memory_extra_metadata_keys "hi" "u1" "zapier" "zapier" "automation"
      "zapier_webhook" dt0 dt0 dt0 dt0 dt0
      (some [("category", PyVal.str "custom")])
      (.ok (.dict [("id", .str "m2")]))
      ⟨true, .str "m2", "u1", "hi",
        create_memory_full_metadata "zapier" "zapier" "automation"
          "zapier_webhook" dt0 dt0 dt0 dt0 dt0
          (some [("category", PyVal.str "custom")])⟩
      (by decide) rfl).2.2.2.2⟩

/-- C2 counterexample: extraction is not total. On the response
` \x7b"results": []\x7d ` — in which none of the documented patterns match,
so the claim demands an absent identifier — the source evaluates
`result.get(\x27results\x27, [\x7b\x7d])[0]` on the present empty list and
raises `IndexError` instead. -/
theorem extract_memory_id_raises_on_empty_results :
    extract_memory_id (.dict [("results", .list [])]) = .error "IndexError" :=
  rfl

/-- C2 amended: identifier extraction is pattern-based and behaves as
claimed on the documented shapes — ` \x7b"id": "m1"\x7d ` yields `m1`,
` \x7b"results": [\x7b"id": "m2"\x7d]\x7d ` yields `m2`,
`[\x7b"id": "m3"\x7d]` yields `m3`, and ` \x7b\x7d ` yields absent — but it
is not total: it raises when a mapping's `results` key holds an empty
list, and when a sequence's first element is not a mapping. -/
theorem extract_memory_id_patterns :
    extract_memory_id (.dict [("id", .str "m1")]) = .ok (.str "m1") ∧
    extract_memory_id (.dict [("results", .list [.dict [("id", .str "m2")]])]) =
      .ok (.str "m2") ∧
    extract_memory_id (.list [.dict [("id", .str "m3")]]) = .ok (.str "m3") ∧
    extract_memory_id (.dict []) = .ok .null ∧
    extract_memory_id (.list [.int 5]) = .error "AttributeError" :=
  ⟨rfl, rfl, rfl, rfl, rfl⟩

/-- The priority resolution actually implemented by the `or` chains: the
first truthy value in the list, else the fallback. -/
def firstTruthy : List PyVal → PyVal → PyVal
  | [], dflt => dflt
  | x :: rest, dflt => if truthy x then x else firstTruthy rest dflt

/-- C3 counterexample: the Zapier normalizer does not take the first
present alias value. On ` \x7b"content": "", "message": "hi"\x7d ` the
first present alias (`content`) holds `""`, yet the normalizer resolves
content to `"hi"` — Python `or` skips present-but-falsy values. -/
theorem zapier_content_skips_present_falsy_alias :
    zapier_normalize "quinn_may"
      (.dict [("content", .str ""), ("message", .str "hi")]) =
      .ok ⟨.str "hi", .str "quinn_may", .str "zapier", []⟩ ∧
    PyVal.str "hi" ≠ PyVal.str "" :=
  ⟨rfl, by simp⟩

/-- C3 amended: the Zapier normalizer resolves content as the first
present-and-truthy value among `content`, `message`, `text` (a present but
falsy value such as `""` is skipped), falling back to the string rendering
of the whole object; `user_id` as the first truthy value among `user_id`,
`userId`, else the configured default; and `category` to the `category`
value when truthy, else `"zapier"`. In particular
` \x7b"message": "hi", "userId": "u1", "extra": 1\x7d ` yields
content `"hi"`, user `"u1"`, defaulted category, and metadata `extra: 1`. -/
theorem zapier_normalize_resolution :
    (∀ (d : String) (fs : PyDict), ∃ r,
      zapier_normalize d (.dict fs) = .ok r ∧
      r.content = firstTruthy
        [pyGetD fs "content" .null, pyGetD fs "message" .null,
         pyGetD fs "text" .null] (.str (pyRepr (.dict fs))) ∧
      r.user_id = firstTruthy
        [pyGetD fs "user_id" .null, pyGetD fs "userId" .null] (.str d) ∧
      r.category = firstTruthy [pyGetD fs "category" .null] (.str "zapier")) ∧
    zapier_normalize "quinn_may"
      (.dict [("message", .str "hi"), ("userId", .str "u1"),
              ("extra", .int 1)]) =
      .ok ⟨.str "hi", .str "u1", .str "zapier", [("extra", .int 1)]⟩ :=
  ⟨fun _d _fs => ⟨_, rfl, rfl, rfl, rfl⟩, rfl⟩

/-- C4 counterexample: an alias key that is present but not the one used
is dropped, not kept. On
` \x7b"content": "a", "message": "b", "extra": 1\x7d ` the metadata passed
onward is ` \x7b"extra": 1\x7d `: the unused alias `message` is absent
from it, contradicting the claim that it is kept. -/
theorem zapier_metadata_drops_unused_alias :
    zapier_normalize "quinn_may"
      (.dict [("content", .str "a"), ("message", .str "b"),
              ("extra", .int 1)]) =
      .ok ⟨.str "a", .str "quinn_may", .str "zapier", [("extra", .int 1)]⟩ ∧
    dictGet [("extra", PyVal.int 1)] "message" = none :=
  ⟨rfl, rfl⟩

/-- C4 amended: the caller metadata passed onward consists of exactly the
top-level entries whose key is outside the fixed exclusion list
`content, message, text, user_id, userId, category` — every alias key is
excluded whether or not it was the one actually used. -/
theorem zapier_metadata_excludes_fixed_keys (d : String) (fs : PyDict) :
    ∃ r, zapier_normalize d (.dict fs) = .ok r ∧
      ∀ kv : String × PyVal,
        kv ∈ r.metadata ↔ (kv ∈ fs ∧ kv.1 ∉ zapierConsumedKeys) := by
  refine ⟨_, rfl, fun kv => ?_⟩
  simp [List.mem_filter]

/-- C5 counterexample: normalization can fail on a payload the HTTP layer
accepts. A JSON array is a valid body for both flexible endpoints, and on
`[1, 2]` both normalizers raise `AttributeError` (the first `.get` call on
a list). -/
theorem normalizers_raise_on_sequence_payload :
    zapier_normalize "quinn_may" (.list [.int 1, .int 2]) =
      .error "AttributeError" ∧
    generic_normalize "quinn_may" (.list [.int 1, .int 2]) =
      .error "AttributeError" :=
  ⟨rfl, rfl⟩

/-- C5 amended: for every JSON object payload the flexible and generic
normalizers succeed without raising (best-effort extraction with fallback
to stringification); the structured shape fails with a validation error
when `content` is absent or not text; but on non-object payloads (arrays,
strings, numbers), which the HTTP layer also accepts, the flexible and
generic normalizers raise. -/
theorem normalizers_total_on_objects (d : String) (fs fs2 : PyDict)
    (h : ∀ s, dictGet fs2 "content" ≠ some (.str s)) :
    (∃ r, zapier_normalize d (.dict fs) = .ok r) ∧
    (∃ g, generic_normalize d (.dict fs) = .ok g) ∧
    (∃ e, parse_structured d (.dict fs2) = .error e) := by
  refine ⟨⟨_, rfl⟩, ⟨_, rfl⟩, ?_⟩
  rcases hv : dictGet fs2 "content" with _ | v
  · exact ⟨"validation error: content", by simp [parse_structured, hv]⟩
  · cases v with
    | str s => exact absurd hv (h s)
    | null => exact ⟨"validation error: content", by simp [parse_structured, hv]⟩
    | bool b => exact ⟨"validation error: content", by simp [parse_structured, hv]⟩
    | int n => exact ⟨"validation error: content", by simp [parse_structured, hv]⟩
    | list xs => exact ⟨"validation error: content", by simp [parse_structured, hv]⟩
    | dict gs => exact ⟨"validation error: content", by simp [parse_structured, hv]⟩

/-- Witness for C5: a concrete flexible body and a structured body with
`content` absent. -/
theorem normalizers_total_on_objects_witness :
    (∀ s, dictGet ([] : PyDict) "content" ≠ some (.str s)) ∧
    ((∃ r, zapier_normalize "quinn_may"
        (.dict [("message", .str "hi")]) = .ok r) ∧
     (∃ g, generic_normalize "quinn_may"
        (.dict [("message", .str "hi")]) = .ok g) ∧
     (∃ e, parse_structured "quinn_may" (.dict []) = .error e)) :=
  ⟨(fun _s h => nomatch h),
   normalizers_total_on_objects "quinn_may" [("message", PyVal.str "hi")] []
     (fun _s h => nomatch h)⟩

set_option maxRecDepth 100000 in
/-- FIPS 180-4 known-answer test for the embedded SHA-256. -/
theorem sha256_known_answer :
    hexDigest (sha256 (utf8Encode "abc")) =
      "ba7816bf8f01cfea414140de5dae2223b00361a396177a9cb410ff61f20015ad" := by
  decide

/-- The successful-submission projection of one batch entry. -/
def batchOkResult (ex : MemoryWebhookRequest → Except String CreateMemoryResult)
    (req : MemoryWebhookRequest) : Option CreateMemoryResult :=
  (ex req).toOption

/-- The failure projection of one batch entry: the truncated content
preview plus the error text, when the submission fails. -/
def batchErrEntry (ex : MemoryWebhookRequest → Except String CreateMemoryResult)
    (req : MemoryWebhookRequest) : Option BatchItemError :=
  match ex req with
  | .ok _ => none
  | .error e => some ⟨req.content.take 50, e⟩

theorem batch_foldl_eq (ex : MemoryWebhookRequest → Except String CreateMemoryResult)
    (ms : List MemoryWebhookRequest) :
    ∀ rs es, ms.foldl (batchStep ex) (rs, es) =
      (rs ++ ms.filterMap (batchOkResult ex), es ++ ms.filterMap (batchErrEntry ex)) := by
  induction ms with
  | nil => intro rs es; simp
  | cons q ms ih =>
      intro rs es
      rw [List.foldl_cons]
      cases hq : ex q with
      | ok r =>
          rw [show batchStep ex (rs, es) q = (rs ++ [r], es) by
            simp [batchStep, hq], ih]
          simp [batchOkResult, batchErrEntry, hq, Except.toOption]
      | error e =>
          rw [show batchStep ex (rs, es) q = (rs, es ++ [⟨q.content.take 50, e⟩]) by
            simp [batchStep, hq], ih]
          simp [batchOkResult, batchErrEntry, hq, Except.toOption]

/-- Sample batch requests used to instantiate the concrete scenario of the
batch claim; the second one has a content longer than the 50-character
preview. -/
def reqA : MemoryWebhookRequest :=
  ⟨"memory one", some "u1", none, none, none, none, none⟩

/-- Second sample batch request (the failing one; 71 characters). -/
def reqB : MemoryWebhookRequest :=
  ⟨"memory two has a very long content that exceeds the fifty character cap",
   some "u1", none, none, none, none, none⟩

/-- Third sample batch request. -/
def reqC : MemoryWebhookRequest :=
  ⟨"memory three", some "u1", none, none, none, none, none⟩

/-- A concrete submission executor that fails exactly on `reqB`. -/
def exFailB : MemoryWebhookRequest → Except String CreateMemoryResult :=
  fun req =>
    if req.content = reqB.content then .error "mem0 submission failed"
    else .ok ⟨true, .null, "u1", req.content, []⟩

/-- C6: the batch endpoint runs one submission per entry in order and
continues past failures: the successful results are exactly the
successes in input order, `created`/`failed` count them, and each failure
is captured as the 50-character content preview plus the error text. In
particular, for a batch of 3 whose second submission raises, the result
reports `created = 2`, `failed = 1`, and the failed entry's preview is the
second request's content truncated to 50 characters. -/
theorem webhook_batch_continues_past_failures :
    (∀ (ex : MemoryWebhookRequest → Except String CreateMemoryResult)
       (ms : List MemoryWebhookRequest) (now : String),
      (webhook_batch_memories ex ms now).results =
        ms.filterMap (batchOkResult ex) ∧
      (webhook_batch_memories ex ms now).created =
        (ms.filterMap (batchOkResult ex)).length ∧
      (webhook_batch_memories ex ms now).failed =
        (ms.filterMap (batchErrEntry ex)).length ∧
      ((webhook_batch_memories ex ms now).errors).getD [] =
        ms.filterMap (batchErrEntry ex)) ∧
    ((webhook_batch_memories exFailB [reqA, reqB, reqC] "t").created = 2 ∧
     (webhook_batch_memories exFailB [reqA, reqB, reqC] "t").failed = 1 ∧
     (webhook_batch_memories exFailB [reqA, reqB, reqC] "t").errors =
       some [⟨reqB.content.take 50, "mem0 submission failed"⟩]) := by
  constructor
  · intro ex ms now
    have hfold := batch_foldl_eq ex ms [] []
    simp only [List.nil_append] at hfold
    refine ⟨?_, ?_, ?_, ?_⟩ <;>
      simp only [webhook_batch_memories, hfold]
    cases h : ms.filterMap (batchErrEntry ex) with
    | nil => rfl
    | cons x xs => rfl
  · exact ⟨rfl, rfl, rfl⟩

/-- C10: the empty batch performs no submission and returns
`success = true`, `created = 0`, `failed = 0`, an empty results list and
an absent (`None`) errors field; in general the top-level success flag is
true exactly when the failure count is zero. -/
theorem webhook_batch_empty_and_success_iff :
    (∀ (ex : MemoryWebhookRequest → Except String CreateMemoryResult)
       (now : String),
      webhook_batch_memories ex [] now =
        ⟨true, 0, 0, [], none, now⟩) ∧
    (∀ (ex : MemoryWebhookRequest → Except String CreateMemoryResult)
       (ms : List MemoryWebhookRequest) (now : String),
      ((webhook_batch_memories ex ms now).success = true ↔
        (webhook_batch_memories ex ms now).failed = 0)) := by
  refine ⟨fun ex now => rfl, fun ex ms now => ?_⟩
  simp [webhook_batch_memories]

/-- C7: the health check performs one best-effort probe and always
returns a response (`health_check` is a total function — no error
response): every probe failure yields status `"degraded"` with
`webhook_ready` still `true`, and a successful probe yields
`"healthy"`. -/
theorem health_check_probe_handling (probe : Except String PyVal) (now : String) :
    (∀ e, probe = .error e →
      (health_check probe now).status = "degraded") ∧
    (∀ v, probe = .ok v →
      (health_check probe now).status = "healthy") ∧
    (health_check probe now).webhook_ready = true := by
  cases probe <;> simp [health_check]

/-- Witness for C7: a concrete raising probe yields `"degraded"` with
`webhook_ready` true. -/
theorem health_check_probe_handling_witness :
    ((Except.error "ConnectionError" : Except String PyVal) =
      .error "ConnectionError") ∧
    (health_check (.error "ConnectionError") "t").status = "degraded" ∧
    (health_check (.error "ConnectionError") "t").webhook_ready = true :=
  ⟨rfl,
   (health_check_probe_handling (.error "ConnectionError") "t").1
     "ConnectionError" rfl,
   (health_check_probe_handling (.error "ConnectionError") "t").2.2⟩

/-- C8: with no secret configured (empty or still the placeholder)
verification always returns true; with a configured secret it returns true
exactly when the signature equals the HMAC-SHA256 hex digest of the
payload under that secret, so any HMAC mismatch fails verification. -/
theorem verify_webhook_signature_spec (payload : List Nat)
    (signature secret : String) :
    ((secret = "" ∨ secret = defaultSecretSentinel) →
      verify_webhook_signature payload signature secret = true) ∧
    (secret ≠ "" → secret ≠ defaultSecretSentinel →
      (verify_webhook_signature payload signature secret = true ↔
        signature = hmacSha256Hex (utf8Encode secret) payload)) := by
  constructor
  · intro h
    simp [verify_webhook_signature, h]
  · intro h1 h2
    simp [verify_webhook_signature, h1, h2]

set_option maxRecDepth 100000

/-- Witness for C8: under the configured secret `"key"`, the correct
HMAC-SHA256 hex digest of the payload `"abc"` verifies. -/
theorem verify_webhook_signature_spec_witness :
    ("key" : String) ≠ "" ∧ ("key" : String) ≠ defaultSecretSentinel ∧
    verify_webhook_signature (utf8Encode "abc")
      "9c196e32dc0175f86f4b1cb89289d6619de6bee699e4c378e68309ed97a1a6ab"
      "key" = true :=
  ⟨by decide, by decide,
   ((verify_webhook_signature_spec (utf8Encode "abc")
      "9c196e32dc0175f86f4b1cb89289d6619de6bee699e4c378e68309ed97a1a6ab"
      "key").2 (by decide) (by decide)).mpr (by decide)⟩

end Mem0Webhook
